import Mathlib

/-!
Shallow embedding of the Wii-extension-controller USB adapter
(src/wii-usb.ino): the bit-packed controller report, its accessors,
the dpad disambiguation table, the gamepad mapping, the i2c read
primitive and the poll loop.  Machine bytes are modelled as `Nat`
with explicit division/modulus bit extraction; the 16-bit and 8-bit
signed quantities of the gamepad API are modelled as `Int` with
explicit two's-complement wrapping.
-/

namespace WiiUsb

/-! Constants from the sketch (src/wii-usb.ino lines 31-53). -/

def POLL_INTERVAL_MS : Nat := 16

def I2C_ADDRESS : Nat := 0x52

def INIT_DATA_1 : List Nat := [0xf0, 0x55]

def INIT_DATA_2 : List Nat := [0xfb, 0x00]

def ID_ADDRESS : Nat := 0xfa

def ID_LEN : Nat := 6

def DATA_ADDRESS : Nat := 0x00

def DATA_LEN : Nat := 6

def VALID_ID_1 : List Nat := [0x00, 0x00, 0xA4, 0x20, 0x01, 0x01]

def VALID_ID_2 : List Nat := [0x01, 0x00, 0xA4, 0x20, 0x01, 0x01]

/-- Directional values of the external HID-Project Gamepad API
(out of scope for the repository; 8 compass directions plus centered,
standard hat-switch encoding). -/
def GAMEPAD_DPAD_CENTERED : Int := 0

def GAMEPAD_DPAD_UP : Int := 1

def GAMEPAD_DPAD_UP_RIGHT : Int := 2

def GAMEPAD_DPAD_RIGHT : Int := 3

def GAMEPAD_DPAD_DOWN_RIGHT : Int := 4

def GAMEPAD_DPAD_DOWN : Int := 5

def GAMEPAD_DPAD_DOWN_LEFT : Int := 6

def GAMEPAD_DPAD_LEFT : Int := 7

def GAMEPAD_DPAD_UP_LEFT : Int := 8

/-- Map from bitset of dpad buttons (bits are down, right, up, left)
to Gamepad API dpad value, src/wii-usb.ino lines 58-76. -/
def DPAD_MAPPINGS : List Int :=
  [GAMEPAD_DPAD_CENTERED,
   GAMEPAD_DPAD_DOWN,
   GAMEPAD_DPAD_RIGHT,
   GAMEPAD_DPAD_DOWN_RIGHT,
   GAMEPAD_DPAD_UP,
   GAMEPAD_DPAD_DOWN,
   GAMEPAD_DPAD_UP_RIGHT,
   GAMEPAD_DPAD_RIGHT,
   GAMEPAD_DPAD_LEFT,
   GAMEPAD_DPAD_DOWN_LEFT,
   GAMEPAD_DPAD_RIGHT,
   GAMEPAD_DPAD_DOWN,
   GAMEPAD_DPAD_UP_LEFT,
   GAMEPAD_DPAD_LEFT,
   GAMEPAD_DPAD_UP,
   GAMEPAD_DPAD_CENTERED]

/-! Button identifiers of the `ButtonMappings` enum,
src/wii-usb.ino lines 79-92. -/

def BUTTON_A : Nat := 1

def BUTTON_B : Nat := 2

def BUTTON_X : Nat := 3

def BUTTON_Y : Nat := 4

def BUTTON_PLUS : Nat := 5

def BUTTON_HOME : Nat := 6

def BUTTON_MINUS : Nat := 7

def BUTTON_LEFT_TRIGGER : Nat := 8

def BUTTON_RIGHT_TRIGGER : Nat := 9

def BUTTON_ZL : Nat := 10

def BUTTON_ZR : Nat := 11

/-- The `ControllerData` bit-field struct, src/wii-usb.ino lines 95-127.
Each field holds the value of the corresponding C bit-field member. -/
structure ControllerData where
  left_stick_x : Nat
  right_stick_x1 : Nat
  left_stick_y : Nat
  right_stick_x2 : Nat
  right_stick_y : Nat
  left_trigger1 : Nat
  right_stick_x3 : Nat
  right_trigger : Nat
  left_trigger2 : Nat
  dummy : Nat
  button_right_trigger : Nat
  button_plus : Nat
  button_home : Nat
  button_minus : Nat
  button_left_trigger : Nat
  button_down : Nat
  button_right : Nat
  button_up : Nat
  button_left : Nat
  button_zr : Nat
  button_x : Nat
  button_a : Nat
  button_y : Nat
  button_b : Nat
  button_zl : Nat
deriving DecidableEq, Repr

/-- Extraction of a `w`-bit field starting at bit `lo` of byte `b`
(the avr-gcc bit-field layout allocates fields from the least
significant bit upward). -/
def bits (b lo w : Nat) : Nat := b / 2 ^ lo % 2 ^ w

/-- Reading the six raw report bytes into `ControllerData`, as done by
`Wire.readBytes((byte*)&data, 6)`: byte 0 is read first; within each
byte, bit-fields occupy the low bits first (avr-gcc little endian). -/
def ControllerData.ofBytes (b0 b1 b2 b3 b4 b5 : Nat) : ControllerData where
  left_stick_x := bits b0 0 6
  right_stick_x1 := bits b0 6 2
  left_stick_y := bits b1 0 6
  right_stick_x2 := bits b1 6 2
  right_stick_y := bits b2 0 5
  left_trigger1 := bits b2 5 2
  right_stick_x3 := bits b2 7 1
  right_trigger := bits b3 0 5
  left_trigger2 := bits b3 5 3
  dummy := bits b4 0 1
  button_right_trigger := bits b4 1 1
  button_plus := bits b4 2 1
  button_home := bits b4 3 1
  button_minus := bits b4 4 1
  button_left_trigger := bits b4 5 1
  button_down := bits b4 6 1
  button_right := bits b4 7 1
  button_up := bits b5 0 1
  button_left := bits b5 1 1
  button_zr := bits b5 2 1
  button_x := bits b5 3 1
  button_a := bits b5 4 1
  button_y := bits b5 5 1
  button_b := bits b5 6 1
  button_zl := bits b5 7 1

/-- Right stick x axis is stored in non-contiguous bits,
src/wii-usb.ino lines 129-134. -/
def ControllerData.getRightStickX (d : ControllerData) : Nat :=
  (d.right_stick_x1 <<< 3) ||| (d.right_stick_x2 <<< 1) ||| d.right_stick_x3

/-- Left trigger axis is stored in non-contiguous bits,
src/wii-usb.ino lines 137-140. -/
def ControllerData.getLeftTrigger (d : ControllerData) : Nat :=
  (d.left_trigger1 <<< 3) ||| d.left_trigger2

/-- The 4-bit dpad index computed inside `getDpadValue`,
src/wii-usb.ino lines 145-150 (active-low bits are inverted,
then packed as down, right, up, left from bit 0 upward). -/
def ControllerData.dpadIndex (d : ControllerData) : Nat :=
  let down_bit := if d.button_down = 0 then 1 else 0
  let right_bit := (if d.button_right = 0 then 1 else 0) <<< 1
  let up_bit := (if d.button_up = 0 then 1 else 0) <<< 2
  let left_bit := (if d.button_left = 0 then 1 else 0) <<< 3
  down_bit ||| right_bit ||| up_bit ||| left_bit

/-- Return a Dpad enum value for the Gamepad API,
src/wii-usb.ino lines 143-152. -/
def ControllerData.getDpadValue (d : ControllerData) : Int :=
  DPAD_MAPPINGS.getD d.dpadIndex 0

/-- Two's-complement wrap to a signed 16-bit value (avr-gcc `int`
and `int16_t` are 16 bits wide). -/
def int16ofInt (i : Int) : Int := (i + 32768) % 65536 - 32768

/-- Two's-complement wrap to a signed 8-bit value (`int8_t`). -/
def int8ofInt (i : Int) : Int := (i + 128) % 256 - 128

/-- The report state held by the external HID-Project Gamepad object:
a dpad value, a 32-bit button bitmask (bit `b-1` for button id `b`)
and six signed axes. -/
structure GamepadState where
  dpad : Int
  buttons : Nat
  xAxis : Int
  yAxis : Int
  rxAxis : Int
  ryAxis : Int
  zAxis : Int
  rzAxis : Int
deriving DecidableEq, Repr

/-- `Gamepad.releaseAll()` zeroes the whole report (HID-Project does a
`memset` of the report struct); the previous state is discarded. -/
def gamepadReleaseAll (_g : GamepadState) : GamepadState :=
  ⟨0, 0, 0, 0, 0, 0, 0, 0⟩

/-- `Gamepad.press(b)` sets bit `b - 1` of the button bitmask. -/
def gamepadPress (b : Nat) (g : GamepadState) : GamepadState :=
  { g with buttons := g.buttons ||| (1 <<< (b - 1)) }

/-- Whether button id `b` is pressed in the report state. -/
def GamepadState.pressed (g : GamepadState) (b : Nat) : Bool :=
  g.buttons.testBit (b - 1)

/-- Translation of one decoded report into the gamepad report state,
`updateGamepad`, src/wii-usb.ino lines 230-262.  The axis arithmetic
happens in 16-bit signed ints (`int16_t` casts, 16-bit `int` on AVR);
the two trigger axes go through an `int8_t` cast before the shift and
are truncated to `int8_t` again when handed to the z-axis setters. -/
def updateGamepad (data : ControllerData) (g0 : GamepadState) : GamepadState :=
  let g := gamepadReleaseAll g0
  let g := { g with dpad := data.getDpadValue }
  let g := if data.button_right_trigger = 0 then gamepadPress BUTTON_RIGHT_TRIGGER g else g
  let g := if data.button_plus = 0 then gamepadPress BUTTON_PLUS g else g
  let g := if data.button_home = 0 then gamepadPress BUTTON_HOME g else g
  let g := if data.button_minus = 0 then gamepadPress BUTTON_MINUS g else g
  let g := if data.button_left_trigger = 0 then gamepadPress BUTTON_LEFT_TRIGGER g else g
  let g := if data.button_zr = 0 then gamepadPress BUTTON_ZR g else g
  let g := if data.button_x = 0 then gamepadPress BUTTON_X g else g
  let g := if data.button_a = 0 then gamepadPress BUTTON_A g else g
  let g := if data.button_y = 0 then gamepadPress BUTTON_Y g else g
  let g := if data.button_b = 0 then gamepadPress BUTTON_B g else g
  let g := if data.button_zl = 0 then gamepadPress BUTTON_ZL g else g
  let g := { g with
    xAxis := int16ofInt (int16ofInt (int16ofInt (Int.ofNat data.left_stick_x) - 32) * 1024) }
  let g := { g with
    yAxis := int16ofInt (int16ofInt (int16ofInt (Int.ofNat data.left_stick_y) - 32) * 1024) }
  let g := { g with
    rxAxis := int16ofInt (int16ofInt (int16ofInt (Int.ofNat data.getRightStickX) - 16) * 2048) }
  let g := { g with
    ryAxis := int16ofInt (int16ofInt (int16ofInt (Int.ofNat data.right_stick_y) - 16) * 2048) }
  let g := { g with
    zAxis := int8ofInt (int16ofInt (int8ofInt (Int.ofNat data.getLeftTrigger) * 4)) }
  let g := { g with
    rzAxis := int8ofInt (int16ofInt (int8ofInt (Int.ofNat data.right_trigger) * 4)) }
  g

/-! Model of the bus session (`i2cWrite`, `i2cRead`,
src/wii-usb.ino lines 155-183).  The Wire library is the external
transport; it is modelled as an oracle giving the status of each
write transaction, the number of bytes available at each poll of
`Wire.available()`, and the byte stream delivered by `readBytes`. -/

structure I2CBus where
  writeStatus : List Nat → Int
  availableAt : Nat → Nat
  dataByte : Nat → Nat

/-- Observable bus-level actions performed by `i2cRead`. -/
inductive I2CEvent where
  | busWrite : List Nat → I2CEvent
  | delayMs : Nat → I2CEvent
  | requestFrom : Nat → Nat → I2CEvent
  | readBytes : Nat → I2CEvent
deriving DecidableEq, Repr

/-- `i2cWrite(data, len)`: one write transaction to `I2C_ADDRESS`,
returning the `endTransmission` status. -/
def i2cWrite (bus : I2CBus) (data : List Nat) : Int := bus.writeStatus data

/-- The `while (Wire.available() < len) delay(1);` loop: starting at
poll `k`, return the first poll index at which at least `len` bytes
are available (`none` when `fuel` checks do not suffice; the real
loop would still be spinning). -/
def waitAvail (avail : Nat → Nat) (len : Nat) : Nat → Nat → Option Nat
  | _, 0 => none
  | k, fuel + 1 => if avail k < len then waitAvail avail len (k + 1) fuel else some k

/-- Result of `i2cRead`: returned status, bytes stored into `result`,
and the bus actions performed. -/
structure I2CReadResult where
  status : Int
  data : List Nat
  events : List I2CEvent
deriving DecidableEq, Repr

/-- `i2cRead(address, len, result)`, src/wii-usb.ino lines 169-183:
write the one-byte register pointer; on nonzero status return it at
once; otherwise delay 1 ms, request `len` bytes, spin until that many
are available (one `delay(1)` per failed poll), then read exactly
`len` bytes and return 0.  `none` models the spin loop not having
terminated within `fuel` polls. -/
def i2cRead (bus : I2CBus) (fuel address len : Nat) : Option I2CReadResult :=
  let err := i2cWrite bus [address]
  if err ≠ 0 then some ⟨err, [], [I2CEvent.busWrite [address]]⟩
  else
    match waitAvail bus.availableAt len 0 fuel with
    | none => none
    | some k =>
      some ⟨0, (List.range len).map bus.dataByte,
        [I2CEvent.busWrite [address], I2CEvent.delayMs 1,
         I2CEvent.requestFrom I2C_ADDRESS len]
          ++ (List.range k).map (fun _idx => I2CEvent.delayMs 1)
          ++ [I2CEvent.readBytes len]⟩

/-! Model of the poll loop (`loop`, src/wii-usb.ino lines 290-321)
and of `setup` (lines 264-288). -/

/-- Outcome of one cycle's `getControllerData` call: the status
returned by `i2cRead(0x00, 6, ...)` and the six raw bytes the bus
delivered (meaningful only when `err = 0`; on failure the local
`ControllerData` stays uninitialized and unused). -/
structure BusReadResult where
  err : Int
  b0 : Nat
  b1 : Nat
  b2 : Nat
  b3 : Nat
  b4 : Nat
  b5 : Nat
deriving DecidableEq, Repr

/-- Observable behavior of one `loop` iteration. -/
structure CycleTrace where
  readAddr : Nat
  readLen : Nat
  updated : Bool
  emitted : Option GamepadState
deriving DecidableEq, Repr

/-- One iteration of `loop`: read the controller state from register
`DATA_ADDRESS`; if the status is 0 run `updateGamepad`, otherwise
leave the gamepad state untouched; in either case `Gamepad.write()`
is then called, emitting the current report state. -/
def loopCycle (r : BusReadResult) (g : GamepadState) : GamepadState × CycleTrace :=
  let g1 := if r.err = 0 then
      updateGamepad (ControllerData.ofBytes r.b0 r.b1 r.b2 r.b3 r.b4 r.b5) g
    else g
  (g1, ⟨DATA_ADDRESS, DATA_LEN, decide (r.err = 0), some g1⟩)

/-- The unbounded poll loop, run over a finite prefix of bus
outcomes, collecting each cycle's trace. -/
def runLoop (g : GamepadState) : List BusReadResult → List CycleTrace
  | [] => []
  | r :: rs =>
    let p := loopCycle r g
    p.2 :: runLoop p.1 rs

/-- Everything the bus returns during one run of the sketch: the two
`initController` write statuses, the `getControllerId` read status and
identification bytes, and the per-cycle data-read outcomes. -/
structure BusOracle where
  initErr1 : Int
  initErr2 : Int
  idErr : Int
  idBytes : List Nat
  reads : List BusReadResult

/-- Observable behavior of a whole run: the setup-time writes, the
identification read request, and the poll-cycle traces. -/
structure SystemTrace where
  setupWrites : List (List Nat)
  idReadAddr : Nat
  idReadLen : Nat
  cycles : List CycleTrace
deriving DecidableEq, Repr

/-- A whole run of the sketch: `setup` writes `INIT_DATA_1` and
`INIT_DATA_2` (statuses only debug-printed), reads `ID_LEN` bytes
from `ID_ADDRESS` into a local buffer that is only debug-printed,
calls `Gamepad.releaseAll()`, then `loop` runs over the read
outcomes.  The identification bytes and statuses flow nowhere. -/
def systemRun (o : BusOracle) (g0 : GamepadState) : SystemTrace :=
  ⟨[INIT_DATA_1, INIT_DATA_2], ID_ADDRESS, ID_LEN,
   runLoop (gamepadReleaseAll g0) o.reads⟩

/-! Helper lemmas. -/

lemma bits_lt (b lo w : Nat) : bits b lo w < 2 ^ w :=
  Nat.mod_lt _ (by positivity)

lemma bits1_cases (b lo : Nat) : bits b lo 1 = 0 ∨ bits b lo 1 = 1 := by
  have h := bits_lt b lo 1
  norm_num at h
  omega

lemma testBit_bits1 (b k : Nat) : b.testBit k = decide (bits b k 1 = 1) := by
  rw [Nat.testBit_to_div_mod]
  unfold bits
  rw [pow_one]

lemma int16ofInt_eq_self (i : Int) (h1 : -32768 ≤ i) (h2 : i < 32768) :
    int16ofInt i = i := by
  unfold int16ofInt
  omega

lemma int8ofInt_eq_self (i : Int) (h1 : -128 ≤ i) (h2 : i < 128) :
    int8ofInt i = i := by
  unfold int8ofInt
  omega

lemma dpadIndex_lt (d : ControllerData) : d.dpadIndex < 16 := by
  unfold ControllerData.dpadIndex
  have h16 : (16 : Nat) = 2 ^ 4 := by norm_num
  have h1 : (if d.button_down = 0 then 1 else 0) < 2 ^ 4 := by split <;> decide
  have h2 : ((if d.button_right = 0 then 1 else 0) <<< 1) < 2 ^ 4 := by split <;> decide
  have h3 : ((if d.button_up = 0 then 1 else 0) <<< 2) < 2 ^ 4 := by split <;> decide
  have h4 : ((if d.button_left = 0 then 1 else 0) <<< 3) < 2 ^ 4 := by split <;> decide
  rw [h16]
  exact Nat.or_lt_two_pow (Nat.or_lt_two_pow (Nat.or_lt_two_pow h1 h2) h3) h4

lemma getD_mem_of_lt {l : List Int} {n : Nat} (h : n < l.length) (a : Int) :
    l.getD n a ∈ l := by
  rw [List.getD_eq_getElem?_getD, List.getElem?_eq_getElem h]
  exact List.getElem_mem h

example :
    (ControllerData.ofBytes 0 0 64 224 0 0).getLeftTrigger = 23 := by decide

example :
    (ControllerData.ofBytes 192 64 128 0 0 0).getRightStickX = 27 := by decide

example :
    (ControllerData.ofBytes 0 0 0 0 0xff 0xff).getDpadValue =
      GAMEPAD_DPAD_CENTERED := by decide

example :
    (ControllerData.ofBytes 0 0 0 0 0xbf 0xff).getDpadValue =
      GAMEPAD_DPAD_DOWN := by decide

/-! Claim theorems. -/

/-- C2, counterexample: the claim states the left-trigger value is
reassembled as (hi shl 2) or lo from a 3-bit high and a 2-bit low
fragment.  In the code the high fragment `left_trigger1` (byte 2,
bits 6:5) has 2 bits, the low fragment `left_trigger2` (byte 3,
bits 7:5) has 3 bits, and they combine as (hi shl 3) or lo: the
report with `left_trigger1 = 1`, `left_trigger2 = 0` reassembles
to 8, while the claim's formula gives 4 under the reading hi =
`left_trigger1`, and 1 under the reading hi = `left_trigger2`. -/
theorem c2_counterexample :
    (ControllerData.ofBytes 0 0 32 0 0 0).left_trigger1 = 1 ∧
    (ControllerData.ofBytes 0 0 32 0 0 0).left_trigger2 = 0 ∧
    (ControllerData.ofBytes 0 0 32 0 0 0).getLeftTrigger = 8 ∧
    ((1 : Nat) <<< 2) ||| 0 = 4 ∧
    ((0 : Nat) <<< 2) ||| 1 = 1 ∧
    (8 : Nat) ≠ 4 ∧ (8 : Nat) ≠ 1 := by
  decide

/-- C2, amended: the left-trigger value is reassembled from a 2-bit
high fragment hi (`left_trigger1`, byte 2 bits 6:5) and a 3-bit low
fragment lo (`left_trigger2`, byte 3 bits 7:5) as (hi shl 3) or lo;
in particular, for hi = 0b10 and lo = 0b111 the reconstructed 5-bit
value equals 23 (0b10111). -/
theorem c2_left_trigger_reassembly :
    (∀ b0 b1 b2 b3 b4 b5 : Nat,
      (ControllerData.ofBytes b0 b1 b2 b3 b4 b5).getLeftTrigger =
        ((bits b2 5 2) <<< 3) ||| (bits b3 5 3)) ∧
    (ControllerData.ofBytes 0 0 64 224 0 0).left_trigger1 = 2 ∧
    (ControllerData.ofBytes 0 0 64 224 0 0).left_trigger2 = 7 ∧
    (ControllerData.ofBytes 0 0 64 224 0 0).getLeftTrigger = 23 := by
  refine ⟨fun b0 b1 b2 b3 b4 b5 => rfl, by decide, by decide, by decide⟩

/-- C7: the right-stick-x value is reassembled from its high fragment
(`right_stick_x1`, byte 0 bits 7:6), middle fragment (`right_stick_x2`,
byte 1 bits 7:6) and low fragment (`right_stick_x3`, byte 2 bit 7) as
(hi shl 3) or (mid shl 1) or lo; for hi = 0b11, mid = 0b01, lo = 1 the
reconstructed 5-bit value equals 27 (0b11011). -/
theorem c7_right_stick_x_reassembly :
    (∀ b0 b1 b2 b3 b4 b5 : Nat,
      (ControllerData.ofBytes b0 b1 b2 b3 b4 b5).getRightStickX =
        ((bits b0 6 2) <<< 3) ||| ((bits b1 6 2) <<< 1) ||| (bits b2 7 1)) ∧
    (ControllerData.ofBytes 192 64 128 0 0 0).right_stick_x1 = 3 ∧
    (ControllerData.ofBytes 192 64 128 0 0 0).right_stick_x2 = 1 ∧
    (ControllerData.ofBytes 192 64 128 0 0 0).right_stick_x3 = 1 ∧
    (ControllerData.ofBytes 192 64 128 0 0 0).getRightStickX = 27 := by
  refine ⟨fun b0 b1 b2 b3 b4 b5 => rfl, by decide, by decide, by decide, by decide⟩

/-- C10: for every raw report the 4-bit dpad index is below the length
of `DPAD_MAPPINGS`, that table has exactly 16 entries, and the per-cycle
lookup therefore always lands in bounds and yields a table entry. -/
theorem c10_dpad_lookup_in_bounds :
    ∀ b0 b1 b2 b3 b4 b5 : Nat,
      (ControllerData.ofBytes b0 b1 b2 b3 b4 b5).dpadIndex < DPAD_MAPPINGS.length ∧
      DPAD_MAPPINGS.length = 16 ∧
      (ControllerData.ofBytes b0 b1 b2 b3 b4 b5).getDpadValue ∈ DPAD_MAPPINGS := by
  intro b0 b1 b2 b3 b4 b5
  have hlen : DPAD_MAPPINGS.length = 16 := by decide
  have hidx := dpadIndex_lt (ControllerData.ofBytes b0 b1 b2 b3 b4 b5)
  refine ⟨by omega, hlen, ?_⟩
  exact getD_mem_of_lt (by omega) 0

/-- C3: for every raw report, after active-low inversion the 4-bit
index (left shl 3) or (up shl 2) or (right shl 1) or down is looked up
in the fixed 16-entry table; the result is always one of the 9
directional values; the none-pressed and all-four-pressed combinations
both map to centered; and the pure opposing pairs up+down and
left+right collapse to one of their two directions. -/
theorem c3_dpad_table (b0 b1 b2 b3 b4 b5 : Nat) (d : ControllerData)
    (hd : d = ControllerData.ofBytes b0 b1 b2 b3 b4 b5) :
    (d.getDpadValue = DPAD_MAPPINGS.getD
        (((if d.button_left = 0 then 1 else 0) <<< 3) |||
         ((if d.button_up = 0 then 1 else 0) <<< 2) |||
         ((if d.button_right = 0 then 1 else 0) <<< 1) |||
         (if d.button_down = 0 then 1 else 0)) 0) ∧
    d.getDpadValue ∈ [GAMEPAD_DPAD_CENTERED, GAMEPAD_DPAD_UP, GAMEPAD_DPAD_UP_RIGHT,
      GAMEPAD_DPAD_RIGHT, GAMEPAD_DPAD_DOWN_RIGHT, GAMEPAD_DPAD_DOWN,
      GAMEPAD_DPAD_DOWN_LEFT, GAMEPAD_DPAD_LEFT, GAMEPAD_DPAD_UP_LEFT] ∧
    (d.button_down = 1 ∧ d.button_right = 1 ∧ d.button_up = 1 ∧ d.button_left = 1 →
      d.getDpadValue = GAMEPAD_DPAD_CENTERED) ∧
    (d.button_down = 0 ∧ d.button_right = 0 ∧ d.button_up = 0 ∧ d.button_left = 0 →
      d.getDpadValue = GAMEPAD_DPAD_CENTERED) ∧
    (d.button_up = 0 ∧ d.button_down = 0 ∧ d.button_right = 1 ∧ d.button_left = 1 →
      d.getDpadValue = GAMEPAD_DPAD_UP ∨ d.getDpadValue = GAMEPAD_DPAD_DOWN) ∧
    (d.button_left = 0 ∧ d.button_right = 0 ∧ d.button_up = 1 ∧ d.button_down = 1 →
      d.getDpadValue = GAMEPAD_DPAD_LEFT ∨ d.getDpadValue = GAMEPAD_DPAD_RIGHT) := by
  subst hd
  simp only [ControllerData.ofBytes, ControllerData.getDpadValue, ControllerData.dpadIndex]
  rcases bits1_cases b4 6 with h1 | h1 <;>
    rcases bits1_cases b4 7 with h2 | h2 <;>
      rcases bits1_cases b5 0 with h3 | h3 <;>
        rcases bits1_cases b5 1 with h4 | h4 <;>
          simp only [h1, h2, h3, h4] <;> decide

/-- C3 witness: the none-pressed report and the all-pressed report map
to centered, the up+down report maps to up or down, and the left+right
report maps to left or right, at concrete raw bytes. -/
theorem c3_dpad_table_witness :
    (ControllerData.ofBytes 0 0 0 0 0xff 0xff).getDpadValue = GAMEPAD_DPAD_CENTERED ∧
    (ControllerData.ofBytes 0 0 0 0 0x3f 0xfc).getDpadValue = GAMEPAD_DPAD_CENTERED ∧
    ((ControllerData.ofBytes 0 0 0 0 0xbf 0xfe).getDpadValue = GAMEPAD_DPAD_UP ∨
     (ControllerData.ofBytes 0 0 0 0 0xbf 0xfe).getDpadValue = GAMEPAD_DPAD_DOWN) ∧
    ((ControllerData.ofBytes 0 0 0 0 0x7f 0xfd).getDpadValue = GAMEPAD_DPAD_LEFT ∨
     (ControllerData.ofBytes 0 0 0 0 0x7f 0xfd).getDpadValue = GAMEPAD_DPAD_RIGHT) := by
  refine ⟨?_, ?_, ?_, ?_⟩
  · exact (c3_dpad_table 0 0 0 0 0xff 0xff _ rfl).2.2.1 (by decide)
  · exact (c3_dpad_table 0 0 0 0 0x3f 0xfc _ rfl).2.2.2.1 (by decide)
  · exact (c3_dpad_table 0 0 0 0 0xbf 0xfe _ rfl).2.2.2.2.1 (by decide)
  · exact (c3_dpad_table 0 0 0 0 0x7f 0xfd _ rfl).2.2.2.2.2 (by decide)

lemma pressIf_buttons_testBit (c : Prop) [Decidable c] (k i : Nat) (g : GamepadState) :
    ((if c then gamepadPress k g else g).buttons).testBit i =
      (g.buttons.testBit i || (decide c && decide (k - 1 = i))) := by
  split <;> rename_i h
  · simp [gamepadPress, Nat.testBit_or, Nat.shiftLeft_eq, Nat.testBit_two_pow, h]
  · simp [h]

lemma updateGamepad_testBit (d : ControllerData) (g : GamepadState) (i : Nat) :
    (updateGamepad d g).buttons.testBit i =
      ((decide (d.button_right_trigger = 0) && decide (BUTTON_RIGHT_TRIGGER - 1 = i)) ||
       (decide (d.button_plus = 0) && decide (BUTTON_PLUS - 1 = i)) ||
       (decide (d.button_home = 0) && decide (BUTTON_HOME - 1 = i)) ||
       (decide (d.button_minus = 0) && decide (BUTTON_MINUS - 1 = i)) ||
       (decide (d.button_left_trigger = 0) && decide (BUTTON_LEFT_TRIGGER - 1 = i)) ||
       (decide (d.button_zr = 0) && decide (BUTTON_ZR - 1 = i)) ||
       (decide (d.button_x = 0) && decide (BUTTON_X - 1 = i)) ||
       (decide (d.button_a = 0) && decide (BUTTON_A - 1 = i)) ||
       (decide (d.button_y = 0) && decide (BUTTON_Y - 1 = i)) ||
       (decide (d.button_b = 0) && decide (BUTTON_B - 1 = i)) ||
       (decide (d.button_zl = 0) && decide (BUTTON_ZL - 1 = i))) := by
  simp only [updateGamepad, pressIf_buttons_testBit, gamepadReleaseAll]
  simp [Bool.or_assoc]

/-- C4: for each of the 11 discrete buttons and every raw report, the
output button state is pressed exactly when that button's raw bit is 0,
independently of every other bit of the report (the right-hand side of
each equivalence mentions only the button's own raw bit). -/
theorem c4_buttons_active_low :
    ∀ (b0 b1 b2 b3 b4 b5 : Nat) (g : GamepadState),
      ((updateGamepad (ControllerData.ofBytes b0 b1 b2 b3 b4 b5) g).pressed BUTTON_A = true ↔
        Nat.testBit b5 4 = false) ∧
      ((updateGamepad (ControllerData.ofBytes b0 b1 b2 b3 b4 b5) g).pressed BUTTON_B = true ↔
        Nat.testBit b5 6 = false) ∧
      ((updateGamepad (ControllerData.ofBytes b0 b1 b2 b3 b4 b5) g).pressed BUTTON_X = true ↔
        Nat.testBit b5 3 = false) ∧
      ((updateGamepad (ControllerData.ofBytes b0 b1 b2 b3 b4 b5) g).pressed BUTTON_Y = true ↔
        Nat.testBit b5 5 = false) ∧
      ((updateGamepad (ControllerData.ofBytes b0 b1 b2 b3 b4 b5) g).pressed BUTTON_PLUS = true ↔
        Nat.testBit b4 2 = false) ∧
      ((updateGamepad (ControllerData.ofBytes b0 b1 b2 b3 b4 b5) g).pressed BUTTON_HOME = true ↔
        Nat.testBit b4 3 = false) ∧
      ((updateGamepad (ControllerData.ofBytes b0 b1 b2 b3 b4 b5) g).pressed BUTTON_MINUS = true ↔
        Nat.testBit b4 4 = false) ∧
      ((updateGamepad (ControllerData.ofBytes b0 b1 b2 b3 b4 b5) g).pressed BUTTON_LEFT_TRIGGER = true ↔
        Nat.testBit b4 5 = false) ∧
      ((updateGamepad (ControllerData.ofBytes b0 b1 b2 b3 b4 b5) g).pressed BUTTON_RIGHT_TRIGGER = true ↔
        Nat.testBit b4 1 = false) ∧
      ((updateGamepad (ControllerData.ofBytes b0 b1 b2 b3 b4 b5) g).pressed BUTTON_ZL = true ↔
        Nat.testBit b5 7 = false) ∧
      ((updateGamepad (ControllerData.ofBytes b0 b1 b2 b3 b4 b5) g).pressed BUTTON_ZR = true ↔
        Nat.testBit b5 2 = false) := by
  intro b0 b1 b2 b3 b4 b5 g
  refine ⟨?_, ?_, ?_, ?_, ?_, ?_, ?_, ?_, ?_, ?_, ?_⟩ <;>
    simp only [GamepadState.pressed, updateGamepad_testBit, ControllerData.ofBytes] <;>
      norm_num [BUTTON_A, BUTTON_B, BUTTON_X, BUTTON_Y, BUTTON_PLUS, BUTTON_HOME,
        BUTTON_MINUS, BUTTON_LEFT_TRIGGER, BUTTON_RIGHT_TRIGGER, BUTTON_ZL, BUTTON_ZR]
  · rcases bits1_cases b5 4 with h | h <;> simp [h, testBit_bits1]
  · rcases bits1_cases b5 6 with h | h <;> simp [h, testBit_bits1]
  · rcases bits1_cases b5 3 with h | h <;> simp [h, testBit_bits1]
  · rcases bits1_cases b5 5 with h | h <;> simp [h, testBit_bits1]
  · rcases bits1_cases b4 2 with h | h <;> simp [h, testBit_bits1]
  · rcases bits1_cases b4 3 with h | h <;> simp [h, testBit_bits1]
  · rcases bits1_cases b4 4 with h | h <;> simp [h, testBit_bits1]
  · rcases bits1_cases b4 5 with h | h <;> simp [h, testBit_bits1]
  · rcases bits1_cases b4 1 with h | h <;> simp [h, testBit_bits1]
  · rcases bits1_cases b5 7 with h | h <;> simp [h, testBit_bits1]
  · rcases bits1_cases b5 2 with h | h <;> simp [h, testBit_bits1]

lemma getRightStickX_lt (b0 b1 b2 b3 b4 b5 : Nat) :
    (ControllerData.ofBytes b0 b1 b2 b3 b4 b5).getRightStickX < 32 := by
  have h1 := bits_lt b0 6 2
  have h2 := bits_lt b1 6 2
  have h3 := bits_lt b2 7 1
  norm_num at h1 h2 h3
  simp only [ControllerData.ofBytes, ControllerData.getRightStickX]
  have h32 : (32 : Nat) = 2 ^ 5 := by norm_num
  rw [h32]
  refine Nat.or_lt_two_pow (Nat.or_lt_two_pow ?_ ?_) ?_
  · rw [Nat.shiftLeft_eq]
    norm_num
    omega
  · rw [Nat.shiftLeft_eq]
    norm_num
    omega
  · norm_num
    omega

lemma getLeftTrigger_lt (b0 b1 b2 b3 b4 b5 : Nat) :
    (ControllerData.ofBytes b0 b1 b2 b3 b4 b5).getLeftTrigger < 32 := by
  have h1 := bits_lt b2 5 2
  have h2 := bits_lt b3 5 3
  norm_num at h1 h2
  simp only [ControllerData.ofBytes, ControllerData.getLeftTrigger]
  have h32 : (32 : Nat) = 2 ^ 5 := by norm_num
  rw [h32]
  refine Nat.or_lt_two_pow ?_ ?_
  · rw [Nat.shiftLeft_eq]
    norm_num
    omega
  · norm_num
    omega

/-- C5: for every raw report, the six analog axes are computed by exact
integer arithmetic with no overflow or truncation: the left-stick axes
are (value - 32) shl 10 on the 6-bit stick fields, the right-stick axes
are (value - 16) shl 11 on the 5-bit stick values, and the trigger axes
are value shl 2 on the 5-bit trigger values, whose int8 interpretation
coincides with the unsigned value. -/
theorem c5_axis_scaling :
    ∀ (b0 b1 b2 b3 b4 b5 : Nat) (g : GamepadState),
      (updateGamepad (ControllerData.ofBytes b0 b1 b2 b3 b4 b5) g).xAxis =
        (((ControllerData.ofBytes b0 b1 b2 b3 b4 b5).left_stick_x : Int) - 32) * 2 ^ 10 ∧
      (updateGamepad (ControllerData.ofBytes b0 b1 b2 b3 b4 b5) g).yAxis =
        (((ControllerData.ofBytes b0 b1 b2 b3 b4 b5).left_stick_y : Int) - 32) * 2 ^ 10 ∧
      (updateGamepad (ControllerData.ofBytes b0 b1 b2 b3 b4 b5) g).rxAxis =
        (((ControllerData.ofBytes b0 b1 b2 b3 b4 b5).getRightStickX : Int) - 16) * 2 ^ 11 ∧
      (updateGamepad (ControllerData.ofBytes b0 b1 b2 b3 b4 b5) g).ryAxis =
        (((ControllerData.ofBytes b0 b1 b2 b3 b4 b5).right_stick_y : Int) - 16) * 2 ^ 11 ∧
      (updateGamepad (ControllerData.ofBytes b0 b1 b2 b3 b4 b5) g).zAxis =
        ((ControllerData.ofBytes b0 b1 b2 b3 b4 b5).getLeftTrigger : Int) * 2 ^ 2 ∧
      (updateGamepad (ControllerData.ofBytes b0 b1 b2 b3 b4 b5) g).rzAxis =
        ((ControllerData.ofBytes b0 b1 b2 b3 b4 b5).right_trigger : Int) * 2 ^ 2 := by
  intro b0 b1 b2 b3 b4 b5 g
  have hx : (ControllerData.ofBytes b0 b1 b2 b3 b4 b5).left_stick_x < 64 := by
    simp only [ControllerData.ofBytes]
    have h := bits_lt b0 0 6
    norm_num at h
    exact h
  have hy : (ControllerData.ofBytes b0 b1 b2 b3 b4 b5).left_stick_y < 64 := by
    simp only [ControllerData.ofBytes]
    have h := bits_lt b1 0 6
    norm_num at h
    exact h
  have hrx := getRightStickX_lt b0 b1 b2 b3 b4 b5
  have hry : (ControllerData.ofBytes b0 b1 b2 b3 b4 b5).right_stick_y < 32 := by
    simp only [ControllerData.ofBytes]
    have h := bits_lt b2 0 5
    norm_num at h
    exact h
  have hz := getLeftTrigger_lt b0 b1 b2 b3 b4 b5
  have hrz : (ControllerData.ofBytes b0 b1 b2 b3 b4 b5).right_trigger < 32 := by
    simp only [ControllerData.ofBytes]
    have h := bits_lt b3 0 5
    norm_num at h
    exact h
  refine ⟨?_, ?_, ?_, ?_, ?_, ?_⟩ <;>
    simp only [updateGamepad, int16ofInt, int8ofInt] <;> norm_num <;> omega

/-- C6: the output update clears all button state first (its result is
independent of the previous gamepad state), then asserts exactly the
pressed buttons: a successful cycle on the no-buttons-pressed report
(raw button bits all 1) emits a report with zero pressed buttons, and
the immediately following successful cycle on the all-buttons-pressed
report (raw button bits all 0, reserved bit set) emits a report with
all 11 buttons pressed, with no carry-over between the cycles. -/
theorem c6_release_all_then_assert :
    ∀ g0 : GamepadState,
      (∀ (d : ControllerData) (g g' : GamepadState), updateGamepad d g = updateGamepad d g') ∧
      (loopCycle ⟨0, 0, 0, 0, 0, 0xff, 0xff⟩ g0).2.updated = true ∧
      (loopCycle ⟨0, 0, 0, 0, 0, 0xff, 0xff⟩ g0).2.emitted =
        some ((loopCycle ⟨0, 0, 0, 0, 0, 0xff, 0xff⟩ g0).1) ∧
      (loopCycle ⟨0, 0, 0, 0, 0, 0xff, 0xff⟩ g0).1.buttons = 0 ∧
      (∀ b : Nat, (loopCycle ⟨0, 0, 0, 0, 0, 0xff, 0xff⟩ g0).1.pressed b = false) ∧
      ((loopCycle ⟨0, 0, 0, 0, 0, 0x01, 0x00⟩
          ((loopCycle ⟨0, 0, 0, 0, 0, 0xff, 0xff⟩ g0).1)).1.pressed BUTTON_A = true ∧
       (loopCycle ⟨0, 0, 0, 0, 0, 0x01, 0x00⟩
          ((loopCycle ⟨0, 0, 0, 0, 0, 0xff, 0xff⟩ g0).1)).1.pressed BUTTON_B = true ∧
       (loopCycle ⟨0, 0, 0, 0, 0, 0x01, 0x00⟩
          ((loopCycle ⟨0, 0, 0, 0, 0, 0xff, 0xff⟩ g0).1)).1.pressed BUTTON_X = true ∧
       (loopCycle ⟨0, 0, 0, 0, 0, 0x01, 0x00⟩
          ((loopCycle ⟨0, 0, 0, 0, 0, 0xff, 0xff⟩ g0).1)).1.pressed BUTTON_Y = true ∧
       (loopCycle ⟨0, 0, 0, 0, 0, 0x01, 0x00⟩
          ((loopCycle ⟨0, 0, 0, 0, 0, 0xff, 0xff⟩ g0).1)).1.pressed BUTTON_PLUS = true ∧
       (loopCycle ⟨0, 0, 0, 0, 0, 0x01, 0x00⟩
          ((loopCycle ⟨0, 0, 0, 0, 0, 0xff, 0xff⟩ g0).1)).1.pressed BUTTON_HOME = true ∧
       (loopCycle ⟨0, 0, 0, 0, 0, 0x01, 0x00⟩
          ((loopCycle ⟨0, 0, 0, 0, 0, 0xff, 0xff⟩ g0).1)).1.pressed BUTTON_MINUS = true ∧
       (loopCycle ⟨0, 0, 0, 0, 0, 0x01, 0x00⟩
          ((loopCycle ⟨0, 0, 0, 0, 0, 0xff, 0xff⟩ g0).1)).1.pressed BUTTON_LEFT_TRIGGER = true ∧
       (loopCycle ⟨0, 0, 0, 0, 0, 0x01, 0x00⟩
          ((loopCycle ⟨0, 0, 0, 0, 0, 0xff, 0xff⟩ g0).1)).1.pressed BUTTON_RIGHT_TRIGGER = true ∧
       (loopCycle ⟨0, 0, 0, 0, 0, 0x01, 0x00⟩
          ((loopCycle ⟨0, 0, 0, 0, 0, 0xff, 0xff⟩ g0).1)).1.pressed BUTTON_ZL = true ∧
       (loopCycle ⟨0, 0, 0, 0, 0, 0x01, 0x00⟩
          ((loopCycle ⟨0, 0, 0, 0, 0, 0xff, 0xff⟩ g0).1)).1.pressed BUTTON_ZR = true) := by
  intro g0
  have hstep :
      loopCycle ⟨0, 0, 0, 0, 0, 0x01, 0x00⟩ ((loopCycle ⟨0, 0, 0, 0, 0, 0xff, 0xff⟩ g0).1) =
        loopCycle ⟨0, 0, 0, 0, 0, 0x01, 0x00⟩ ⟨0, 0, 0, 0, 0, 0, 0, 0⟩ := rfl
  refine ⟨fun d g g' => rfl, rfl, rfl, rfl, ?_,
    ?_, ?_, ?_, ?_, ?_, ?_, ?_, ?_, ?_, ?_, ?_⟩
  · intro b
    show Nat.testBit 0 (b - 1) = false
    exact Nat.zero_testBit _
  all_goals rw [hstep]
  all_goals decide

/-- C1, counterexample: in a Poll cycle whose data read fails with
status 1, the claim says the USB report writer is never invoked; in the
code `Gamepad.write()` is outside the error check, so a report carrying
the unchanged previous gamepad state is still emitted. -/
theorem c1_counterexample :
    (loopCycle ⟨1, 0, 0, 0, 0, 0, 0⟩ ⟨0, 0, 0, 0, 0, 0, 0, 0⟩).2.emitted =
      some ⟨0, 0, 0, 0, 0, 0, 0, 0⟩ ∧
    (loopCycle ⟨1, 0, 0, 0, 0, 0, 0⟩ ⟨0, 0, 0, 0, 0, 0, 0, 0⟩).2.emitted ≠ none := by
  decide

/-- C1, amended: on a Poll cycle whose bus read returns a nonzero
status, the gamepad state is not updated (`updateGamepad` is not
invoked, so no new state is derived from the failed read), but
`Gamepad.write()` still runs and emits a report carrying the unchanged
previous gamepad state; and every cycle, in particular the immediately
following one, performs a fresh read of `DATA_LEN` bytes from the report
address `DATA_ADDRESS`. -/
theorem c1_error_cycle_skips_update (r : BusReadResult) (g : GamepadState)
    (h : r.err ≠ 0) :
    (loopCycle r g).1 = g ∧
    (loopCycle r g).2.updated = false ∧
    (loopCycle r g).2.emitted = some g ∧
    (∀ (r2 : BusReadResult) (g2 : GamepadState),
      (loopCycle r2 g2).2.readAddr = DATA_ADDRESS ∧
      (loopCycle r2 g2).2.readLen = DATA_LEN) := by
  refine ⟨?_, ?_, ?_, fun r2 g2 => ⟨rfl, rfl⟩⟩ <;> simp [loopCycle, h]

/-- C1 witness: the amended theorem applied to a concrete failing cycle
(status 1) starting from the zero gamepad state. -/
theorem c1_error_cycle_witness :
    (loopCycle ⟨1, 0, 0, 0, 0, 0, 0⟩ ⟨0, 0, 0, 0, 0, 0, 0, 0⟩).1 =
      ⟨0, 0, 0, 0, 0, 0, 0, 0⟩ :=
  (c1_error_cycle_skips_update ⟨1, 0, 0, 0, 0, 0, 0⟩ ⟨0, 0, 0, 0, 0, 0, 0, 0⟩
    (by decide)).1

/-- C9: the identification bytes (and the identification read status)
influence nothing that follows: two runs differing only in them produce
identical system traces, in particular identical per-cycle gamepad
output for identical report inputs; specifically the run given the
identification `01 00 A4 20 01 01` behaves identically to one given
`00 00 A4 20 01 01`. -/
theorem c9_id_bytes_no_influence :
    (∀ (o : BusOracle) (otherId : List Nat) (otherIdErr : Int) (g0 : GamepadState),
      systemRun ⟨o.initErr1, o.initErr2, otherIdErr, otherId, o.reads⟩ g0 =
        systemRun o g0) ∧
    (∀ (e1 e2 er : Int) (reads : List BusReadResult) (g0 : GamepadState),
      systemRun ⟨e1, e2, er, VALID_ID_2, reads⟩ g0 =
        systemRun ⟨e1, e2, er, VALID_ID_1, reads⟩ g0) :=
  ⟨fun _o _i _e _g => rfl, fun _a _b _c _d _g => rfl⟩

lemma waitAvail_spec (avail : Nat → Nat) (len : Nat) :
    ∀ (fuel s k : Nat), waitAvail avail len s fuel = some k →
      s ≤ k ∧ len ≤ avail k ∧ ∀ j, s ≤ j → j < k → avail j < len := by
  intro fuel
  induction fuel with
  | zero =>
    intro s k h
    simp [waitAvail] at h
  | succ n ih =>
    intro s k h
    unfold waitAvail at h
    by_cases hc : avail s < len
    · rw [if_pos hc] at h
      obtain ⟨h1, h2, h3⟩ := ih (s + 1) k h
      refine ⟨by omega, h2, fun j hj1 hj2 => ?_⟩
      rcases Nat.eq_or_lt_of_le hj1 with he | hl
      · rw [← he]
        exact hc
      · exact h3 j hl hj2
    · rw [if_neg hc] at h
      cases h
      exact ⟨Nat.le_refl _, by omega, fun j hj1 hj2 => by omega⟩

/-- C8: `i2cRead` first performs the one-byte register-pointer write;
if that write returns a nonzero status the same status is returned and
the data read is not attempted (the only bus action is the pointer
write); otherwise, whenever the spin loop terminates, the settle delay
of 1 ms follows the write, `len` bytes are requested, one 1 ms delay is
spent per poll that found fewer than `len` bytes available, exactly
`len` bytes are read, and status 0 is returned. -/
theorem c8_i2cRead_contract (bus : I2CBus) (fuel address len : Nat) :
    (bus.writeStatus [address] ≠ 0 →
      i2cRead bus fuel address len =
        some ⟨bus.writeStatus [address], [], [I2CEvent.busWrite [address]]⟩) ∧
    (bus.writeStatus [address] = 0 →
      ∀ res, i2cRead bus fuel address len = some res →
        res.status = 0 ∧
        res.data.length = len ∧
        ∃ k, len ≤ bus.availableAt k ∧ (∀ j, j < k → bus.availableAt j < len) ∧
          res.events =
            [I2CEvent.busWrite [address], I2CEvent.delayMs 1,
             I2CEvent.requestFrom I2C_ADDRESS len] ++
              (List.range k).map (fun _idx => I2CEvent.delayMs 1) ++
              [I2CEvent.readBytes len]) := by
  constructor
  · intro h
    simp [i2cRead, i2cWrite, h]
  · intro h res hres
    simp only [i2cRead, i2cWrite, h, ne_eq, not_true_eq_false, if_false,
      not_false_eq_true] at hres
    rcases hw : waitAvail bus.availableAt len 0 fuel with _ | k
    · rw [hw] at hres
      cases hres
    · rw [hw] at hres
      obtain ⟨hk0, hk1, hk2⟩ := waitAvail_spec bus.availableAt len fuel 0 k hw
      cases hres
      refine ⟨rfl, by simp, k, hk1, fun j hj => hk2 j (Nat.zero_le _) hj, rfl⟩

/-- C8 witness: the contract applied to a bus whose pointer write fails
with status 3 (the status is propagated and only the pointer write
happens), and to a bus whose pointer write succeeds with 6 bytes
immediately available (status 0 and exactly 6 data bytes). -/
theorem c8_i2cRead_contract_witness :
    i2cRead ⟨fun _w => 3, fun _p => 0, fun _i => 0⟩ 1 0xfa 6 =
      some ⟨3, [], [I2CEvent.busWrite [0xfa]]⟩ ∧
    ∃ res, i2cRead ⟨fun _w => 0, fun _p => 6, fun i => i⟩ 4 0 6 = some res ∧
      res.status = 0 ∧ res.data.length = 6 := by
  constructor
  · exact (c8_i2cRead_contract ⟨fun _w => 3, fun _p => 0, fun _i => 0⟩ 1 0xfa 6).1
      (by norm_num)
  · have happ := (c8_i2cRead_contract ⟨fun _w => 0, fun _p => 6, fun i => i⟩ 4 0 6).2 rfl
    refine ⟨_, rfl, (happ _ rfl).1, (happ _ rfl).2.1⟩

end WiiUsb
